import Mathlib

/-!
Shallow embedding of the `elysium-ai-endpoint` serverless handlers.

The repository consists of several near-duplicate `api/analyze.ts` handler
variants plus `api/ping.ts` / `api/selftest.ts`.  Each handler validates a
JSON request body, builds a `system`/`user` prompt pair from the body's
`snapshot`, and forwards it to an external completion API.  The embedding
below models, from the source:

* the dynamic JavaScript values a parsed JSON body can contain (`JsVal`,
  with JS numbers split into finite values and the non-finite `NaN` /
  `Infinity` / `-Infinity` cases, `JsNum`);
* the per-variant request validation and prompt construction
  (`analyzeV1Handle` for the first handler in `src/api/analyze.ts`,
  `part001v2Handle` for the second handler in `src/unnamed/part_001`,
  `systemP2`/`userP2`/`part002Respond` for `src/unnamed/part_002`,
  `buildPrompt`/`asPrettyScores` for the third handler in
  `src/api/analyze.ts`);
* `JSON.stringify(x, null, 2)` and `JSON.stringify(x)` as used by the
  prompt builders (`renderP`, `renderC`); request bodies are parsed JSON,
  which can never contain `undefined`, so the undefined-property-omission
  rule of `JSON.stringify` is not needed for values coming from a body,
  and objects built in code omit such fields at construction time;
* `normalizeMatrixFromRows` from `src/unnamed/part_001`;
* the spec's Aggregator (`aggregate`), which has no implementation under
  `src/` and is therefore modelled from the spec (see its doc comment).

JavaScript finite doubles are embedded as rationals (`ℚ`); the claims under
study only exercise integer-valued scores, and `ratRepr` renders integers
exactly as JS number-to-string conversion does.
-/

/-- A JavaScript number: a finite value (embedded as a rational) or one of
the non-finite values `NaN`, `Infinity`, `-Infinity`. -/
inductive JsNum where
  | fin (q : ℚ)
  | nan
  | inf
  | neginf
deriving DecidableEq

/-- `isFinite` on a JS number. -/
def JsNum.isFinite : JsNum → Bool
  | .fin _ => true
  | _ => false

/-- The rational carried by a finite JS number (`0` otherwise). -/
def JsNum.toQ : JsNum → ℚ
  | .fin q => q
  | _ => 0

/-- A dynamically typed JavaScript value, as produced by `JSON.parse` on a
request body (plus `undefined` for missing properties). -/
inductive JsVal where
  | vUndefined
  | vNull
  | vBool (b : Bool)
  | vNum (n : JsNum)
  | vStr (s : String)
  | vArr (xs : List JsVal)
  | vObj (fields : List (String × JsVal))

/-- JS truthiness: `undefined`, `null`, `false`, `0`, `NaN` and `""` are
falsy; every other value (including any object or array) is truthy. -/
def JsVal.truthy : JsVal → Bool
  | .vUndefined => false
  | .vNull => false
  | .vBool b => b
  | .vNum (.fin q) => q != 0
  | .vNum .nan => false
  | .vNum _ => true
  | .vStr s => s != ""
  | .vArr _ => true
  | .vObj _ => true

/-- Property access `v[k]`: `undefined` unless `v` is an object that has
the property.  (A JS object has each key at most once; on a list with a
duplicate key the first binding is returned.) -/
def JsVal.getField (v : JsVal) (k : String) : JsVal :=
  match v with
  | .vObj fs =>
    match fs.find? (fun f => f.1 == k) with
    | some f => f.2
    | none => .vUndefined
  | _ => .vUndefined

/-- `typeof v === "string"`. -/
def JsVal.isStr : JsVal → Bool
  | .vStr _ => true
  | _ => false

/-- The string carried by a string value (`""` otherwise). -/
def JsVal.asStr : JsVal → String
  | .vStr s => s
  | _ => ""

/-- `Array.isArray(v)`. -/
def JsVal.isArr : JsVal → Bool
  | .vArr _ => true
  | _ => false

/-- The element list of an array value (`[]` otherwise). -/
def JsVal.asArr : JsVal → List JsVal
  | .vArr xs => xs
  | _ => []

/-- `v.length` of an array value. -/
def JsVal.arrLen : JsVal → Nat
  | .vArr xs => xs.length
  | _ => 0

/-- Substring containment: `t` occurs contiguously inside `s`. -/
def strContains (s t : String) : Prop := t.data <:+: s.data

instance (s t : String) : Decidable (strContains s t) := by
  unfold strContains; infer_instance

/-- JS string-to-string of an integer (JS renders integral doubles with no
decimal point). Non-integral rationals stand in for non-integral doubles,
whose exact JS formatting is not modelled; no claim exercises them. -/
def ratRepr (q : ℚ) : String :=
  if q.den = 1 then toString q.num else toString q.num ++ "/" ++ toString q.den

/-- JSON rendering of a JS number: non-finite numbers serialize to `null`. -/
def renderNum : JsNum → String
  | .fin q => ratRepr q
  | _ => "null"

/-- JSON string escaping for the characters the handlers can produce. -/
def escChar (c : Char) : String :=
  if c = '\"' then "\\\"" else
  if c = '\\' then "\\\\" else
  if c = '\n' then "\\n" else String.singleton c

/-- A JSON-quoted string. -/
def quoteStr (s : String) : String :=
  "\"" ++ String.join (s.data.map escChar) ++ "\""

mutual

/-- `JSON.stringify(v, null, 2)`, at current container indentation `ind`.
Top-level `undefined` does not occur in the handlers' uses. -/
def renderP (ind : String) : JsVal → String
  | .vUndefined => "null"
  | .vNull => "null"
  | .vBool b => if b then "true" else "false"
  | .vNum n => renderNum n
  | .vStr s => quoteStr s
  | .vArr [] => "[]"
  | .vArr (x :: xs) => "[\n" ++ renderItems (ind ++ "  ") (x :: xs) ++ "\n" ++ ind ++ "]"
  | .vObj [] => "\x7b\x7d"
  | .vObj (f :: fs) => "\x7b\n" ++ renderFields (ind ++ "  ") (f :: fs) ++ "\n" ++ ind ++ "\x7d"

/-- The comma-and-newline separated items of a non-empty array. -/
def renderItems (ind : String) : List JsVal → String
  | [] => ""
  | [x] => ind ++ renderP ind x
  | x :: y :: xs => ind ++ renderP ind x ++ ",\n" ++ renderItems ind (y :: xs)

/-- The comma-and-newline separated properties of a non-empty object. -/
def renderFields (ind : String) : List (String × JsVal) → String
  | [] => ""
  | [f] => ind ++ quoteStr f.1 ++ ": " ++ renderP ind f.2
  | f :: g :: fs => ind ++ quoteStr f.1 ++ ": " ++ renderP ind f.2 ++ ",\n" ++ renderFields ind (g :: fs)

end

mutual

/-- Compact `JSON.stringify(v)` (no indentation argument). -/
def renderC : JsVal → String
  | .vUndefined => "null"
  | .vNull => "null"
  | .vBool b => if b then "true" else "false"
  | .vNum n => renderNum n
  | .vStr s => quoteStr s
  | .vArr xs => "[" ++ renderCItems xs ++ "]"
  | .vObj fs => "\x7b" ++ renderCFields fs ++ "\x7d"

/-- Comma separated compact items. -/
def renderCItems : List JsVal → String
  | [] => ""
  | [x] => renderC x
  | x :: y :: xs => renderC x ++ "," ++ renderCItems (y :: xs)

/-- Comma separated compact properties. -/
def renderCFields : List (String × JsVal) → String
  | [] => ""
  | [f] => quoteStr f.1 ++ ":" ++ renderC f.2
  | f :: g :: fs => quoteStr f.1 ++ ":" ++ renderC f.2 ++ "," ++ renderCFields (g :: fs)

end

/-- `brand || "The Elysium Group"`: the brand substituted into the system
text, defaulting when `brand` is missing or falsy (the empty string). -/
def brandEff (brand : Option String) : String :=
  match brand with
  | some b => if b = "" then "The Elysium Group" else b
  | none => "The Elysium Group"

/-- `(referenceNotes || []).join("\n")`. -/
def joinNotes (notes : List String) : String := String.intercalate "\n" notes

/-- `snapshot.scores` of a request body's snapshot value. -/
def scoresOf (snapshot : JsVal) : JsVal := snapshot.getField "scores"

/-! ### Variant 1: first handler in `src/api/analyze.ts` -/

/-- The rejection test of the first `src/api/analyze.ts` handler:
`!snapshot || !Array.isArray(snapshot.scores) || snapshot.scores.length === 0`. -/
def analyzeV1Rejects (snapshot : JsVal) : Bool :=
  !snapshot.truthy || !(scoresOf snapshot).isArr || (scoresOf snapshot).arrLen == 0

/-- The `system` template literal of the first `src/api/analyze.ts`
handler (lines 53-66). -/
def systemV1 (brand : Option String) : String :=
  "\nYou are an organizational culture advisor for a premium consultancy called \"" ++
  brandEff brand ++
  "\".\nUse the 8 culture styles (Caring, Purpose, Learning, Enjoyment, Results, Authority, Safety, Order).\nAudience: sophisticated corporate executives. Be plain-spoken, premium, and actionable.\nConnect culture + leadership behaviors to measurable business outcomes.\nNo numeric scores in the prose. Provide near-term (90-day) and 12-month horizons.\n\nReturn sections:\n1) Executive Summary (3–5 bullets)\n2) Strengths That Matter (tie to outcomes)\n3) Priority Shifts (2–4 targeted recommendations)\n4) Leadership Behaviors & Rituals (by style)\n5) Risks to Monitor & Metrics to Watch\n"

/-- The `user` template literal of the first `src/api/analyze.ts` handler
(lines 68-79): the snapshot is serialized with `JSON.stringify(snapshot, null, 2)`. -/
def userV1 (snapshot : JsVal) (notes : List String) : String :=
  "\nSnapshot (aggregated):\n" ++ renderP "" snapshot ++
  "\n\nReference notes:\n" ++ joinNotes notes ++
  "\n\nConstraints:\n- No numeric scoring in the prose.\n- Include targeted examples or short case-style illustrations where helpful.\n- Keep it concise and board-ready.\n"

/-- The validation-plus-prompt step of the first `src/api/analyze.ts`
handler: a 400 rejection, or the `(system, user)` prompt pair that is sent
upstream. -/
def analyzeV1Handle (brand : Option String) (snapshot : JsVal) (notes : List String) :
    Except (Nat × String) (String × String) :=
  if analyzeV1Rejects snapshot then
    Except.error (400, "Missing snapshot.scores (array required)")
  else
    Except.ok (systemV1 brand, userV1 snapshot notes)

/-! ### Variant: second handler in `src/unnamed/part_001` -/

/-- One sanitized score row of the second `src/unnamed/part_001` handler:
`{ key, style: style || key, current: typeof current === "number" ? current : 0 }`. -/
structure CleanScore where
  key : String
  style : JsVal
  current : JsNum

/-- The filter predicate of `cleanedScores`:
`(r) => r && typeof r.key === "string"`. -/
def goodEntry (r : JsVal) : Bool := r.truthy && (r.getField "key").isStr

/-- The map step of `cleanedScores` (lines 324-328 of
`src/unnamed/part_001`). -/
def cleanEntry (r : JsVal) : CleanScore :=
  { key := (r.getField "key").asStr
    style := if (r.getField "style").truthy then r.getField "style" else r.getField "key"
    current := match r.getField "current" with
      | JsVal.vNum n => n
      | _ => JsNum.fin 0 }

/-- `cleanedScores` (lines 321-328 of `src/unnamed/part_001`): the "light
input sanitation/normalization" applied to `snapshot.scores`. -/
def cleanedScores (scores : List JsVal) : List CleanScore :=
  (scores.filter goodEntry).map cleanEntry

/-- The rejection test of the second `src/unnamed/part_001` handler
(lines 314-319): `!snapshot || !Array.isArray(snapshot.scores)` — note no
emptiness check. -/
def part001v2Rejects (snapshot : JsVal) : Bool :=
  !snapshot.truthy || !(scoresOf snapshot).isArr

/-- The `sys` template literal of the second `src/unnamed/part_001`
handler (lines 330-344). -/
def systemP1b (brand : Option String) : String :=
  "\nYou are a senior organizational culture advisor writing for discerning corporate executives at \"" ++
  brandEff brand ++
  "\".\nUse the HBR 8 culture styles (Caring, Purpose, Learning, Enjoyment, Results, Authority, Safety, Order).\nSpeak in a premium, plain-spoken voice focused on business outcomes.\nDo NOT show numeric scores in the prose; translate them into qualitative insights.\nWhen helpful, include concise, relevant case references (no confidential data) and exemplars to make the guidance tangible.\n\nDeliver:\n1) Executive Summary: 3–5 bullets on the culture profile and business implications.\n2) Strengths Worth Preserving: why they matter and where they create advantage.\n3) Priority Shifts (next 90 days): 3–5 practical, leader-led moves (cadence, rituals, governance).\n4) Risks to Monitor: early warning signs and counter-measures.\n5) Metrics & Signals: how to know it’s working (leading and lagging).\nTone: crisp, board-ready, action-oriented. Keep it under ~600 words.\n"

/-- A sanitized score row serialized back to a JS object (the object passed
to `JSON.stringify` in the `usr` template). -/
def cleanToJs (c : CleanScore) : JsVal :=
  JsVal.vObj [("key", JsVal.vStr c.key), ("style", c.style), ("current", JsVal.vNum c.current)]

/-- The `usr` template literal of the second `src/unnamed/part_001` handler
(lines 346-352): serializes `{ scores: cleanedScores, top3: snapshot.top3 || {} }`
and appends `referenceNotes.join("\n") || "(none)"`. -/
def userP1b (cleaned : List CleanScore) (top3 : JsVal) (notes : List String) : String :=
  "\nSnapshot (qualitative only, no numbers in output):\n" ++
  renderP "" (JsVal.vObj [("scores", JsVal.vArr (cleaned.map cleanToJs)),
                          ("top3", if top3.truthy then top3 else JsVal.vObj [])]) ++
  "\n\nReference notes from client:\n" ++
  (if joinNotes notes = "" then "(none)" else joinNotes notes) ++ "\n"

/-- The validation-plus-prompt step of the second `src/unnamed/part_001`
handler. -/
def part001v2Handle (brand : Option String) (snapshot : JsVal) (notes : List String) :
    Except (Nat × String) (String × String) :=
  if part001v2Rejects snapshot then
    Except.error (400, "Missing snapshot.scores (array required)")
  else
    Except.ok (systemP1b brand,
               userP1b (cleanedScores (scoresOf snapshot).asArr) (snapshot.getField "top3") notes)

/-! ### Variant: `src/unnamed/part_002` (timeout-equipped handler) -/

/-- The upstream timeout budget of `src/unnamed/part_002` (line 5). -/
def OPENAI_TIMEOUT_MS : Nat := 8000

/-- The `system` text of `src/unnamed/part_002` (lines 44-49): four strings
joined by a single space. -/
def systemP2 (brand : Option String) : String :=
  "You are an organizational culture advisor for \"" ++ brandEff brand ++ "\"." ++ " " ++
  "Use HBR’s 8 styles: Caring, Purpose, Learning, Enjoyment, Results, Authority, Safety, Order." ++ " " ++
  "Tone: premium, plain-spoken, executive-ready. No numeric scores in the prose." ++ " " ++
  "Focus on 90-day leader behaviors linked to business outcomes."

/-- The `user` text of `src/unnamed/part_002` (lines 51-57): five lines
joined by newlines, with the snapshot serialized by
`JSON.stringify(snapshot, null, 2)`. -/
def userP2 (snapshot : JsVal) (notes : List String) : String :=
  "Snapshot (aggregated):" ++ "\n" ++ renderP "" snapshot ++ "\n" ++ "" ++ "\n" ++
  "Reference notes:" ++ "\n" ++ joinNotes notes

/-- A thrown JavaScript error, as inspected by the outer catch of
`src/unnamed/part_002` (`e?.name`, `e?.message`). -/
structure JsError where
  name : String
  message : String

/-- The `.catch` attached to the upstream `fetch` (lines 79-81): any
rejection — including the `AbortError` raised when the 8-second timer
fires — is rethrown as `new Error("Upstream fetch failed: " + …)`, whose
`name` is `"Error"`. -/
def wrapFetchError (e : JsError) : JsError :=
  { name := "Error", message := "Upstream fetch failed: " ++ e.message }

/-- The outer catch of `src/unnamed/part_002` (lines 96-103): `AbortError`
maps to 504, anything else to 500.  The response is modelled as
`(status, error-field)`. -/
def catchDispatch (e : JsError) : Nat × String :=
  if e.name = "AbortError" then (504, "Upstream timeout") else (500, "server")

/-- How the upstream completion request can end, from the point of view of
the `src/unnamed/part_002` handler. -/
inductive UpstreamOutcome where
  | ok (content : String)
  | notOk (detail : String)
  | badJson (errName errMsg : String)
  | fetchRejected (errName errMsg : String)

/-- The response of the `src/unnamed/part_002` handler as a function of
the upstream outcome: 200 on success, 502 when `r.ok` is false, and the
outer catch otherwise; rejections of the `fetch` promise itself pass
through the rethrowing `.catch` wrapper first. -/
def part002Respond : UpstreamOutcome → Nat × String
  | .ok content => (200, content)
  | .notOk _ => (502, "OpenAI error")
  | .badJson errName errMsg => catchDispatch { name := errName, message := errMsg }
  | .fetchRejected errName errMsg => catchDispatch (wrapFetchError { name := errName, message := errMsg })

/-! ### Stable descending sort

`[...scores].sort((a, b) => (b.current ?? 0) - (a.current ?? 0))` uses the
ECMAScript stable sort with a consistent numeric comparator; the result is
therefore the unique list that is sorted descending by the key and keeps
tied elements in input order.  The insertion sort below produces exactly
that list. -/

/-- Insert `a` into `l` before the first element whose key is at most
`val a`; ties in `l` therefore end up after `a`. -/
def insertDescBy {α : Type} (val : α → ℚ) (a : α) : List α → List α
  | [] => [a]
  | b :: bs => if val b ≤ val a then a :: b :: bs else b :: insertDescBy val a bs

/-- Stable descending insertion sort by the key `val`. -/
def sortDescBy {α : Type} (val : α → ℚ) : List α → List α
  | [] => []
  | a :: as => insertDescBy val a (sortDescBy val as)

/-! ### Variant 3: third handler in `src/api/analyze.ts` -/

/-- One entry of the snapshot's `scores` array as typed by the third
`src/api/analyze.ts` handler (`ScoreRow`); `style` and `current` are kept
optional because the code guards them (`s.style ||`, `current ?? 0`). -/
structure ScoreRow where
  key : String
  style : Option String
  current : Option ℚ

/-- `b.current ?? 0`, the sort key used by `asPrettyScores`. -/
def curVal (r : ScoreRow) : ℚ := r.current.getD 0

/-- One entry of the `STYLE_MATRIX` constant. -/
structure StyleInfo where
  label : String
  strengths : List String
  risks : List String

/-- The `STYLE_MATRIX` constant of the third `src/api/analyze.ts` handler
(lines 213-305). -/
def STYLE_MATRIX : List (String × StyleInfo) :=
  [("caring",
    { label := "Caring (Collaboration & Trust)"
      strengths := ["High relational trust improves retention and knowledge sharing",
                    "Customer empathy tends to increase CSAT and NPS"]
      risks := ["Conflict avoidance can slow decisions",
                "Consensus culture may dilute accountability"] }),
   ("purpose",
    { label := "Purpose-Driven (Mission & Impact)"
      strengths := ["Mission clarity aligns teams and reduces strategic thrash",
                    "Strong hiring magnet for values-aligned talent"]
      risks := ["Mission drift if not connected to operating targets",
                "Can underweight near-term execution pressure"] }),
   ("learning",
    { label := "Learning (Innovation & Curiosity)"
      strengths := ["Experimentation increases adaptability and time-to-insight",
                    "Post-mortems raise institutional memory"]
      risks := ["Unbounded experimentation erodes focus",
                "Risk aversion kills ideas before validation"] }),
   ("enjoyment",
    { label := "Enjoyment (Energy & Momentum)"
      strengths := ["Celebrating wins sustains pace",
                    "Positive affect improves cross-team cooperation"]
      risks := ["Can mask hard trade-offs",
                "May be perceived as “style over substance” if metrics lag"] }),
   ("results",
    { label := "Results-Oriented (Performance & Outcomes)"
      strengths := ["Clear goals and tracking drive throughput",
                    "Metric discipline reveals what works quickly"]
      risks := ["Over-pressure risks burnout and corner-cutting",
                "Short-termism weakens innovation capacity"] }),
   ("authority",
    { label := "Authority (Decisiveness & Control)"
      strengths := ["Fast, clear calls reduce decision latency",
                    "Useful in high-ambiguity or crisis environments"]
      risks := ["Top-down bias suppresses IC agency and ideas",
                "Single-threaded leadership becomes a bottleneck"] }),
   ("safety",
    { label := "Safety (Risk Management & Reliability)"
      strengths := ["Quality and reliability reduce rework and reputational risk",
                    "Great base for regulated industries"]
      risks := ["Change friction delays time-to-market",
                "Over-control shrinks experimentation surface area"] }),
   ("order",
    { label := "Order-Oriented (Process & Consistency)"
      strengths := ["Clear handoffs and SOPs improve scale efficiency",
                    "Predictability supports distributed execution"]
      risks := ["Process ossification stifles speed",
                "Excessive controls create compliance theater"] })]

/-- `STYLE_MATRIX[k]` as an optional lookup. -/
def styleMatrix (k : String) : Option StyleInfo := STYLE_MATRIX.lookup k

/-- `s.style || s.key` with JS falsiness of the empty string. -/
def styleOrKey (r : ScoreRow) : String :=
  match r.style with
  | some st => if st = "" then r.key else st
  | none => r.key

/-- `STYLE_MATRIX[s.key]?.label || s.style || s.key`. -/
def prettyLabel (r : ScoreRow) : String :=
  match styleMatrix r.key with
  | some m => if m.label = "" then styleOrKey r else m.label
  | none => styleOrKey r

/-- One output entry of `asPrettyScores`. -/
structure PrettyScore where
  key : String
  label : String
  current : Option ℚ

/-- The map step of `asPrettyScores`. -/
def prettify (r : ScoreRow) : PrettyScore :=
  { key := r.key, label := prettyLabel r, current := r.current }

/-- `asPrettyScores` (lines 312-319 of `src/api/analyze.ts`): sort a copy
of the scores descending by `current ?? 0` (stable), then decorate each
row with its display label. -/
def asPrettyScores (scores : List ScoreRow) : List PrettyScore :=
  (sortDescBy curVal scores).map prettify

/-- `p.current ?? 0` on a pretty score (the value the ordering is by). -/
def prettyVal (p : PrettyScore) : ℚ := p.current.getD 0

/-- The snapshot as typed by the third `src/api/analyze.ts` handler. -/
structure SnapshotV3 where
  scores : List ScoreRow
  top3Observed : Option (List String)
  top3Personal : Option (List String)

/-- The optional `orgMeta` of the third handler. -/
structure OrgMeta where
  company : Option String
  domain : Option String
  industry : Option String

/-- `a || b` on an optional string, with JS falsiness of `""`. -/
def orStrOpt (a : Option String) (b : String) : String :=
  match a with
  | some s => if s = "" then b else s
  | none => b

/-- `orgMeta?.company || orgMeta?.domain || ''`. -/
def companyOf (o : Option OrgMeta) : String :=
  match o with
  | some m => orStrOpt m.company (orStrOpt m.domain "")
  | none => ""

/-- `orgMeta?.industry || ''`. -/
def industryOf (o : Option OrgMeta) : String :=
  match o with
  | some m => orStrOpt m.industry ""
  | none => ""

/-- A pretty score serialized to the JS object placed in `inputs.scores`;
a missing `current` is an `undefined` property, which `JSON.stringify`
omits. -/
def prettyToJs (p : PrettyScore) : JsVal :=
  JsVal.vObj ([("key", JsVal.vStr p.key), ("label", JsVal.vStr p.label)] ++
    (match p.current with
     | some q => [("current", JsVal.vNum (JsNum.fin q))]
     | none => []))

/-- `STYLE_MATRIX` serialized to the JS object placed in `inputs.matrix`. -/
def styleMatrixJs : JsVal :=
  JsVal.vObj (STYLE_MATRIX.map (fun e =>
    (e.1, JsVal.vObj [("label", JsVal.vStr e.2.label),
                      ("strengths", JsVal.vArr (e.2.strengths.map JsVal.vStr)),
                      ("risks", JsVal.vArr (e.2.risks.map JsVal.vStr))])))

/-- The `schema` object literal inside `buildPrompt` (lines 351-411 of
`src/api/analyze.ts`). -/
def schemaJs : JsVal :=
  JsVal.vObj
    [("type", JsVal.vStr "object"),
     ("required", JsVal.vArr
       [JsVal.vStr "executiveSummary", JsVal.vStr "methodology", JsVal.vStr "currentState",
        JsVal.vStr "leadershipImplications", JsVal.vStr "risks", JsVal.vStr "gapsAndOpportunities",
        JsVal.vStr "recommendedActions", JsVal.vStr "expectedBusinessImpact", JsVal.vStr "appendix"]),
     ("properties", JsVal.vObj
       [("executiveSummary", JsVal.vObj [("type", JsVal.vStr "string")]),
        ("methodology", JsVal.vObj [("type", JsVal.vStr "string")]),
        ("currentState", JsVal.vObj
          [("type", JsVal.vStr "object"),
           ("properties", JsVal.vObj
             [("styleHighlights", JsVal.vObj [("type", JsVal.vStr "array"),
                ("items", JsVal.vObj [("type", JsVal.vStr "string")])]),
              ("table", JsVal.vObj [("type", JsVal.vStr "array"),
                ("items", JsVal.vObj
                  [("type", JsVal.vStr "object"),
                   ("properties", JsVal.vObj
                     [("label", JsVal.vObj [("type", JsVal.vStr "string")]),
                      ("relative", JsVal.vObj [("type", JsVal.vStr "string")])])])]),
              ("personalTop3", JsVal.vObj [("type", JsVal.vStr "array"),
                ("items", JsVal.vObj [("type", JsVal.vStr "string")])])])]),
        ("leadershipImplications", JsVal.vObj [("type", JsVal.vStr "array"),
          ("items", JsVal.vObj [("type", JsVal.vStr "string")])]),
        ("risks", JsVal.vObj [("type", JsVal.vStr "array"),
          ("items", JsVal.vObj [("type", JsVal.vStr "string")])]),
        ("gapsAndOpportunities", JsVal.vObj [("type", JsVal.vStr "array"),
          ("items", JsVal.vObj [("type", JsVal.vStr "string")])]),
        ("recommendedActions", JsVal.vObj
          [("type", JsVal.vStr "object"),
           ("properties", JsVal.vObj
             [("days90", JsVal.vObj [("type", JsVal.vStr "array"),
                ("items", JsVal.vObj [("type", JsVal.vStr "string")])]),
              ("months12", JsVal.vObj [("type", JsVal.vStr "array"),
                ("items", JsVal.vObj [("type", JsVal.vStr "string")])]),
              ("operatingMechanisms", JsVal.vObj [("type", JsVal.vStr "array"),
                ("items", JsVal.vObj [("type", JsVal.vStr "string")])])])]),
        ("expectedBusinessImpact", JsVal.vObj [("type", JsVal.vStr "array"),
          ("items", JsVal.vObj [("type", JsVal.vStr "string")])]),
        ("caseBriefs", JsVal.vObj [("type", JsVal.vStr "array"),
          ("items", JsVal.vObj
            [("type", JsVal.vStr "object"),
             ("properties", JsVal.vObj
               [("org", JsVal.vObj [("type", JsVal.vStr "string")]),
                ("lesson", JsVal.vObj [("type", JsVal.vStr "string")])])])]),
        ("appendix", JsVal.vObj
          [("type", JsVal.vStr "object"),
           ("properties", JsVal.vObj
             [("notes", JsVal.vObj [("type", JsVal.vStr "array"),
                ("items", JsVal.vObj [("type", JsVal.vStr "string")])]),
              ("assumptions", JsVal.vObj [("type", JsVal.vStr "array"),
                ("items", JsVal.vObj [("type", JsVal.vStr "string")])])])])])]

/-- The fixed `system` message content of `buildPrompt` (lines 332-338). -/
def systemV3 : String :=
  "You are a seasoned culture & leadership advisor creating executive-ready reports for The Elysium Group. " ++
  "Audience: C-suite. Tone: plain-spoken, premium, concise. " ++
  "Avoid numeric scores in prose; describe relative strength (e.g., “strong, emerging, weak”) unless placing a data snippet table. " ++
  "Link culture patterns to measurable business outcomes (growth, margin, cycle time, quality, retention). " ++
  "Where relevant, include brief case-style examples that a reader could research (company name + 1-line lesson). " ++
  "Return ONLY JSON matching the schema I will give you. No markdown."

/-- The object passed to `JSON.stringify` for the `user` message of
`buildPrompt` (lines 342-412). -/
def userJsonV3 (brand : String) (snapshot : SnapshotV3) (orgMeta : Option OrgMeta) : JsVal :=
  JsVal.vObj
    [("instruction", JsVal.vStr "Produce a complete executive culture report as JSON."),
     ("brand", JsVal.vStr brand),
     ("org", JsVal.vObj [("company", JsVal.vStr (companyOf orgMeta)),
                         ("industry", JsVal.vStr (industryOf orgMeta))]),
     ("inputs", JsVal.vObj
       [("scores", JsVal.vArr ((asPrettyScores snapshot.scores).map prettyToJs)),
        ("topPersonal", JsVal.vArr ((snapshot.top3Personal.getD []).map JsVal.vStr)),
        ("matrix", styleMatrixJs)]),
     ("schema", schemaJs)]

/-- One message of the prompt array returned by `buildPrompt`. -/
structure PromptMessage where
  role : String
  content : String

/-- `buildPrompt` (lines 322-415 of `src/api/analyze.ts`): the two-message
prompt payload built from the brand, snapshot and `orgMeta`. -/
def buildPrompt (brand : String) (snapshot : SnapshotV3) (orgMeta : Option OrgMeta) :
    List PromptMessage :=
  [{ role := "system", content := systemV3 },
   { role := "user", content := renderC (userJsonV3 brand snapshot orgMeta) }]

/-! ### Aggregator (spec §4.1)

The repository's aggregation step is described in the spec (§3, §4.1) but
has no implementation under `src/`; the definitions in this subsection are
therefore modelled from the spec's words rather than translated from
source code. -/

/-- Modelled from the spec: the Canonical Category List — "the fixed,
ordered set of eight category keys/labels that every `AggregateSummary`
must report on" (Glossary; the eight HBR culture styles used throughout
the handlers). -/
def canonicalKeys : List String :=
  ["caring", "purpose", "learning", "enjoyment", "results", "authority", "safety", "order"]

/-- Modelled from the spec: the display label of a canonical category. -/
def canonicalLabel (k : String) : String :=
  if k = "caring" then "Caring" else
  if k = "purpose" then "Purpose" else
  if k = "learning" then "Learning" else
  if k = "enjoyment" then "Enjoyment" else
  if k = "results" then "Results" else
  if k = "authority" then "Authority" else
  if k = "safety" then "Safety" else
  if k = "order" then "Order" else k

/-- Modelled from the spec: one `ScoreEntry` of a normalized `Snapshot`
(§3) — the value is finite by normalization. -/
structure SpecScore where
  key : String
  value : ℚ

/-- Modelled from the spec: a normalized `Snapshot` (§3). -/
structure SpecSnapshot where
  scores : List SpecScore
  topObserved : List String
  topPersonal : List String

/-- Modelled from the spec: one `{key, label, average}` entry of
`categoryAverages` (§3). -/
structure CatAvg where
  key : String
  label : String
  average : ℚ
deriving DecidableEq

/-- Modelled from the spec: an `AggregateSummary` (§3). -/
structure AggregateSummary where
  sampleSize : Nat
  categoryAverages : List CatAvg
  topObservedByFrequency : List String
  topPersonalByFrequency : List String

/-- Modelled from the spec: "all finite values recorded under that
category's key across all snapshots" (§4.1). -/
def contributions (k : String) (snaps : List SpecSnapshot) : List ℚ :=
  (snaps.flatMap (fun s => s.scores)).filterMap
    (fun e => if e.key = k then some e.value else none)

/-- Modelled from the spec: "compute the arithmetic mean of all finite
values recorded under that category's key across all snapshots (0 if
none)" (§4.1). -/
def catAverage (k : String) (snaps : List SpecSnapshot) : ℚ :=
  let vs := contributions k snaps
  if vs.length = 0 then 0 else vs.sum / (vs.length : ℚ)

/-- Modelled from the spec: the per-category entries in canonical order,
before the descending sort. -/
def catEntries (snaps : List SpecSnapshot) : List CatAvg :=
  canonicalKeys.map (fun k => { key := k, label := canonicalLabel k, average := catAverage k snaps })

/-- Modelled from the spec: distinct labels in first-seen order. -/
def firstSeen (l : List String) : List String :=
  l.foldl (fun acc x => if x ∈ acc then acc else acc ++ [x]) []

/-- Modelled from the spec: "ordered sequence of the 3 most frequent
labels …, ties broken by first-seen order among tied labels" (§3):
a stable descending sort by frequency of the first-seen-ordered distinct
labels, truncated to 3. -/
def topByFrequency (l : List String) : List String :=
  (sortDescBy (fun x => ((l.count x : ℚ))) (firstSeen l)).take 3

/-- Modelled from the spec: `aggregate(snapshots) -> AggregateSummary`
(§4.1): per-category means over the canonical list, sorted descending by
average with ties kept in canonical order (the entries enter the stable
sort in canonical order), plus label frequency tallies. -/
def aggregate (snaps : List SpecSnapshot) : AggregateSummary :=
  { sampleSize := snaps.length
    categoryAverages := sortDescBy CatAvg.average (catEntries snaps)
    topObservedByFrequency := topByFrequency (snaps.flatMap SpecSnapshot.topObserved)
    topPersonalByFrequency := topByFrequency (snaps.flatMap SpecSnapshot.topPersonal) }

/-! ### `normalizeMatrixFromRows` (`src/unnamed/part_001`, lines 54-84) -/

/-- JS `String.prototype.trim()`: drop whitespace from both ends
(a kernel-computable model of `String.trim`). -/
def jsTrim (s : String) : String :=
  String.mk (((s.data.dropWhile Char.isWhitespace).reverse.dropWhile Char.isWhitespace).reverse)

/-- Split a character list at every `.` (a kernel-computable model of
`String.splitOn "."`). -/
def splitDot : List Char → List (List Char)
  | [] => [[]]
  | c :: rest =>
    if c = '.' then [] :: splitDot rest
    else
      match splitDot rest with
      | p :: ps => (c :: p) :: ps
      | [] => [[c]]

/-- All-digit parse of a non-empty character list. -/
def parseDigits (cs : List Char) : Option Nat :=
  if cs = [] then none
  else if cs.all Char.isDigit then
    some (cs.foldl (fun a c => a * 10 + (c.toNat - 48)) 0)
  else none

/-- Decimal-literal parse (optional sign, digits, optional fraction) of a
trimmed string, as accepted by JS `Number(...)`.  (Exponent and non-decimal
forms are not modelled; no claim exercises them.) -/
def parseDecimal (t : String) : Option ℚ :=
  let (neg, rest) :=
    match t.data with
    | '-' :: cs => (true, cs)
    | '+' :: cs => (false, cs)
    | cs => (false, cs)
  let mk : ℚ → Option ℚ := fun q => some (if neg then -q else q)
  match splitDot rest with
  | [ip] =>
    match parseDigits ip with
    | some n => mk (n : ℚ)
    | none => none
  | [ip, fp] =>
    if ip = [] then
      match parseDigits fp with
      | some f => mk ((f : ℚ) / ((10 : ℚ) ^ fp.length))
      | none => none
    else if fp = [] then
      match parseDigits ip with
      | some n => mk (n : ℚ)
      | none => none
    else
      match parseDigits ip, parseDigits fp with
      | some n, some f => mk ((n : ℚ) + (f : ℚ) / ((10 : ℚ) ^ fp.length))
      | _, _ => none
  | _ => none

/-- JS `Number(x)` on a string cell: trims, the empty string is `0`,
`Infinity` forms are infinite, other decimal literals parse, anything else
is `NaN`. -/
def jsNumber (s : String) : JsNum :=
  let t := jsTrim s
  if t = "" then JsNum.fin 0
  else if t = "Infinity" ∨ t = "+Infinity" then JsNum.inf
  else if t = "-Infinity" then JsNum.neginf
  else
    match parseDecimal t with
    | some q => JsNum.fin q
    | none => JsNum.nan

/-- One weight cell (line 72-75 of `src/unnamed/part_001`):
`const n = Number(x); return isFinite(n) ? n : 0;`. -/
def toWeight (x : String) : ℚ :=
  let n := jsNumber x
  if n.isFinite then n.toQ else 0

/-- `while (rowWeights.length < cultures.length) rowWeights.push(0)`. -/
def padWeights (n : Nat) (l : List ℚ) : List ℚ :=
  l ++ List.replicate (n - l.length) 0

/-- One body-row step of `normalizeMatrixFromRows`: skip an empty row or a
row whose first cell trims to the empty label; otherwise keep the label and
the padded numeric weights of the remaining cells. -/
def bodyRow (cultLen : Nat) (r : List String) : Option (String × List ℚ) :=
  match r with
  | [] => none
  | c0 :: rest =>
    let label := jsTrim c0
    if label = "" then none
    else some (label, padWeights cultLen (rest.map toWeight))

/-- The `{ cultures, chosen, weights }` result shape. -/
structure NormMatrix where
  cultures : List String
  chosen : List String
  weights : List (List ℚ)
deriving DecidableEq

/-- `normalizeMatrixFromRows` (lines 54-84 of `src/unnamed/part_001`). -/
def normalizeMatrixFromRows : List (List String) → Option NormMatrix
  | [] => none
  | headerRow :: body =>
    let cultures := ((headerRow.map jsTrim).drop 1).filter (fun s => s != "")
    let picked := body.filterMap (bodyRow cultures.length)
    if cultures.length = 0 ∨ picked.length = 0 then none
    else some { cultures := cultures, chosen := picked.map Prod.fst, weights := picked.map Prod.snd }

/-! ## Helper lemmas -/

theorem data_append (s t : String) : (s ++ t).data = s.data ++ t.data := rfl

theorem strContains_self (t : String) : strContains t t := List.infix_rfl

theorem strContains_appendL {a t : String} (b : String) (h : strContains a t) :
    strContains (a ++ b) t := by
  unfold strContains at *
  rw [data_append]
  exact h.trans (List.prefix_append a.data b.data).isInfix

theorem strContains_appendR {b t : String} (a : String) (h : strContains b t) :
    strContains (a ++ b) t := by
  unfold strContains at *
  rw [data_append]
  exact h.trans (List.suffix_append a.data b.data).isInfix

theorem strContains_trans {s m t : String} (h₁ : strContains s m) (h₂ : strContains m t) :
    strContains s t := h₂.trans h₁

theorem renderItems_contains (ind : String) (x : JsVal) :
    ∀ xs : List JsVal, x ∈ xs → strContains (renderItems ind xs) (renderP ind x) := by
  intro xs
  induction xs with
  | nil => intro h; cases h
  | cons a tail ih =>
    intro h
    cases tail with
    | nil =>
      rcases List.mem_singleton.mp h with rfl
      simp only [renderItems]
      exact strContains_appendR ind (strContains_self _)
    | cons b t =>
      simp only [renderItems]
      rcases List.mem_cons.mp h with rfl | hmem
      · exact strContains_appendL _ (strContains_appendL _
          (strContains_appendR ind (strContains_self _)))
      · exact strContains_appendR _ (ih hmem)

theorem renderFields_contains (ind : String) (f : String × JsVal) :
    ∀ fs : List (String × JsVal), f ∈ fs → strContains (renderFields ind fs) (renderP ind f.2) := by
  intro fs
  induction fs with
  | nil => intro h; cases h
  | cons a tail ih =>
    intro h
    cases tail with
    | nil =>
      rcases List.mem_singleton.mp h with rfl
      simp only [renderFields]
      exact strContains_appendR _ (strContains_self _)
    | cons b t =>
      simp only [renderFields]
      rcases List.mem_cons.mp h with rfl | hmem
      · exact strContains_appendL _ (strContains_appendL _
          (strContains_appendR _ (strContains_self _)))
      · exact strContains_appendR _ (ih hmem)

theorem renderP_obj_contains (ind : String) (fs : List (String × JsVal)) (k : String)
    (v : JsVal) (h : (k, v) ∈ fs) :
    strContains (renderP ind (JsVal.vObj fs)) (renderP (ind ++ "  ") v) := by
  cases fs with
  | nil => cases h
  | cons f fs' =>
    simp only [renderP]
    exact strContains_appendL _ (strContains_appendL _ (strContains_appendL _
      (strContains_appendR _ (renderFields_contains (ind ++ "  ") (k, v) (f :: fs') h))))

theorem renderP_arr_contains (ind : String) (xs : List JsVal) (x : JsVal) (h : x ∈ xs) :
    strContains (renderP ind (JsVal.vArr xs)) (renderP (ind ++ "  ") x) := by
  cases xs with
  | nil => cases h
  | cons y ys =>
    simp only [renderP]
    exact strContains_appendL _ (strContains_appendL _ (strContains_appendL _
      (strContains_appendR _ (renderItems_contains (ind ++ "  ") x (y :: ys) h))))

theorem renderP_num (ind : String) (n : JsNum) : renderP ind (JsVal.vNum n) = renderNum n := by
  simp [renderP]

theorem insertDescBy_perm {α : Type} (val : α → ℚ) (a : α) (l : List α) :
    (insertDescBy val a l).Perm (a :: l) := by
  induction l with
  | nil => simp [insertDescBy]
  | cons b bs ih =>
    by_cases hba : val b ≤ val a
    · simp [insertDescBy, hba]
    · simp only [insertDescBy, if_neg hba]
      exact (ih.cons b).trans (List.Perm.swap a b bs)

theorem sortDescBy_perm {α : Type} (val : α → ℚ) (l : List α) :
    (sortDescBy val l).Perm l := by
  induction l with
  | nil => simp [sortDescBy]
  | cons a as ih =>
    exact (insertDescBy_perm val a (sortDescBy val as)).trans (ih.cons a)

theorem sorted_insertDescBy {α : Type} (val : α → ℚ) (a : α) (l : List α)
    (h : l.Sorted (fun x y => val y ≤ val x)) :
    (insertDescBy val a l).Sorted (fun x y => val y ≤ val x) := by
  induction l with
  | nil => simp [insertDescBy]
  | cons b bs ih =>
    rw [List.sorted_cons] at h
    obtain ⟨hb, hbs⟩ := h
    by_cases hba : val b ≤ val a
    · rw [insertDescBy, if_pos hba, List.sorted_cons]
      refine ⟨?_, by rw [List.sorted_cons]; exact ⟨hb, hbs⟩⟩
      intro c hc
      rcases List.mem_cons.mp hc with rfl | hc'
      · exact hba
      · exact (hb c hc').trans hba
    · rw [insertDescBy, if_neg hba, List.sorted_cons]
      refine ⟨?_, ih hbs⟩
      intro c hc
      rcases List.mem_cons.mp ((insertDescBy_perm val a bs).mem_iff.mp hc) with rfl | hc'
      · exact le_of_not_le hba
      · exact hb c hc'

theorem sorted_sortDescBy {α : Type} (val : α → ℚ) (l : List α) :
    (sortDescBy val l).Sorted (fun x y => val y ≤ val x) := by
  induction l with
  | nil => simp [sortDescBy]
  | cons a as ih => exact sorted_insertDescBy val a (sortDescBy val as) ih

theorem filter_insertDescBy {α : Type} (val : α → ℚ) (q : ℚ) (a : α) (l : List α) :
    (insertDescBy val a l).filter (fun x => decide (val x = q)) =
      if val a = q then a :: l.filter (fun x => decide (val x = q))
      else l.filter (fun x => decide (val x = q)) := by
  induction l with
  | nil => by_cases haq : val a = q <;> simp [insertDescBy, haq]
  | cons b bs ih =>
    by_cases hba : val b ≤ val a
    · rw [insertDescBy, if_pos hba, List.filter_cons]
      by_cases haq : val a = q <;> simp [haq]
    · by_cases haq : val a = q
      · have hbq : val b ≠ q := fun hbq => hba (le_of_eq (hbq.trans haq.symm))
        rw [insertDescBy, if_neg hba, List.filter_cons, List.filter_cons, ih]
        simp [haq, hbq]
      · rw [insertDescBy, if_neg hba, List.filter_cons, List.filter_cons, ih]
        simp [haq]

theorem filter_sortDescBy {α : Type} (val : α → ℚ) (q : ℚ) (l : List α) :
    (sortDescBy val l).filter (fun x => decide (val x = q)) =
      l.filter (fun x => decide (val x = q)) := by
  induction l with
  | nil => simp [sortDescBy]
  | cons a as ih =>
    rw [sortDescBy, filter_insertDescBy, List.filter_cons]
    by_cases haq : val a = q <;> simp [haq, ih]

/-! ## Claim theorems -/

/-- C1 (counterexample): the claim asserts that *every* handler variant
rejects a snapshot with `scores = []` with the 400 "Missing snapshot.scores"
response; but the second `src/unnamed/part_001` handler only checks
`Array.isArray(snapshot.scores)`, so on `{ snapshot: { scores: [] } }` it
does not reject — it proceeds and produces a prompt payload. -/
theorem c1_counterexample :
    (part001v2Handle none (JsVal.vObj [("scores", JsVal.vArr [])]) []).isOk = true ∧
    part001v2Handle none (JsVal.vObj [("scores", JsVal.vArr [])]) [] ≠
      Except.error (400, "Missing snapshot.scores (array required)") := by
  constructor
  · rfl
  · intro h
    simp [part001v2Handle, part001v2Rejects, scoresOf, JsVal.getField, JsVal.truthy,
      JsVal.isArr] at h

/-- C1 (amended): a `Snapshot` whose `scores` is the empty array is
rejected with the 400 "Missing snapshot.scores (array required)" response
by the first `src/api/analyze.ts` handler (which checks
`scores.length === 0`), but the second `src/unnamed/part_001` handler
accepts it and produces a `PromptPayload`. -/
theorem c1_theorem (brand : Option String) (snapshot : JsVal) (notes : List String)
    (h : scoresOf snapshot = JsVal.vArr []) :
    analyzeV1Handle brand snapshot notes =
      Except.error (400, "Missing snapshot.scores (array required)") ∧
    (snapshot.truthy = true → (part001v2Handle brand snapshot notes).isOk = true) := by
  constructor
  · have hrej : analyzeV1Rejects snapshot = true := by
      unfold analyzeV1Rejects
      rw [h]
      simp [JsVal.isArr, JsVal.arrLen]
    simp [analyzeV1Handle, hrej]
  · intro ht
    have hrej : part001v2Rejects snapshot = false := by
      unfold part001v2Rejects
      rw [h]
      simp [ht, JsVal.isArr]
    simp [part001v2Handle, hrej, Except.isOk, Except.toBool]

/-- C1 (witness): the amended theorem at the concrete body
`{ snapshot: { scores: [] } }`. -/
theorem c1_witness :
    analyzeV1Handle none (JsVal.vObj [("scores", JsVal.vArr [])]) [] =
      Except.error (400, "Missing snapshot.scores (array required)") ∧
    (part001v2Handle none (JsVal.vObj [("scores", JsVal.vArr [])]) []).isOk = true :=
  ⟨( c1_theorem none (JsVal.vObj [("scores", JsVal.vArr [])]) [] rfl).1,
   ( c1_theorem none (JsVal.vObj [("scores", JsVal.vArr [])]) [] rfl).2 rfl⟩

/-- C2 (counterexample): the claim asserts an entry with a non-finite or
missing value is absent from the normalized scores; but `cleanedScores`
keeps an entry whose `current` is missing, replacing the value with the
default `0`, and keeps a `NaN` value verbatim. -/
theorem c2_counterexample :
    cleanedScores [JsVal.vObj [("key", JsVal.vStr "caring")]] =
      [{ key := "caring", style := JsVal.vStr "caring", current := JsNum.fin 0 }] ∧
    cleanedScores [JsVal.vObj [("key", JsVal.vStr "focus"),
                               ("current", JsVal.vNum JsNum.nan)]] =
      [{ key := "focus", style := JsVal.vStr "focus", current := JsNum.nan }] :=
  ⟨rfl, rfl⟩

/-- C2 (amended): `cleanedScores` never fails and filters exactly the
entries that are falsy or whose `key` is not a string; an entry with a
string key is always kept, with a missing or non-number `current` coerced
to `0` (and a non-finite number kept verbatim); on
`{scores: [{key: "caring", current: 7}, {key: 123, current: 5}]}` the
result contains only the `caring` entry. -/
theorem c2_theorem (scores : List JsVal) (c : CleanScore) :
    (c ∈ cleanedScores scores ↔ ∃ r ∈ scores, goodEntry r = true ∧ c = cleanEntry r) ∧
    cleanedScores
      [JsVal.vObj [("key", JsVal.vStr "caring"), ("current", JsVal.vNum (JsNum.fin 7))],
       JsVal.vObj [("key", JsVal.vNum (JsNum.fin 123)), ("current", JsVal.vNum (JsNum.fin 5))]] =
      [{ key := "caring", style := JsVal.vStr "caring", current := JsNum.fin 7 }] := by
  constructor
  · simp only [cleanedScores, List.mem_map, List.mem_filter]
    constructor
    · rintro ⟨r, ⟨hr, hg⟩, he⟩
      exact ⟨r, hr, hg, he.symm⟩
    · rintro ⟨r, hr, hg, he⟩
      exact ⟨r, ⟨hr, hg⟩, he.symm⟩
  · rfl

/-- C4: `buildPrompt` is a pure function of `(brand, snapshot, orgMeta)` —
two calls with identical input and config produce identical payloads. -/
theorem c4_theorem (b₁ b₂ : String) (s₁ s₂ : SnapshotV3) (o₁ o₂ : Option OrgMeta)
    (hb : b₁ = b₂) (hs : s₁ = s₂) (ho : o₁ = o₂) :
    buildPrompt b₁ s₁ o₁ = buildPrompt b₂ s₂ o₂ := by
  rw [hb, hs, ho]

/-- C4 (witness): determinism at a concrete input. -/
theorem c4_witness :
    buildPrompt "Acme" { scores := [{ key := "caring", style := none, current := some 6 }],
                         top3Observed := none, top3Personal := none } none =
      buildPrompt "Acme" { scores := [{ key := "caring", style := none, current := some 6 }],
                           top3Observed := none, top3Personal := none } none :=
  c4_theorem _ _ _ _ _ _ rfl rfl rfl

/-- C6: a supplied `brand` is substituted verbatim (unsanitized) into the
system text of both the first `src/api/analyze.ts` handler and the
`src/unnamed/part_002` handler; when it is absent the fixed placeholder
"The Elysium Group" is substituted instead. -/
theorem c6_theorem (s : String) :
    strContains (systemV1 (some s)) s ∧
    systemV1 none = systemV1 (some "The Elysium Group") ∧
    strContains (systemP2 (some s)) s ∧
    systemP2 none = systemP2 (some "The Elysium Group") := by
  have hbrand : ∀ t : String, t ≠ "" → brandEff (some t) = t := by
    intro t ht
    simp [brandEff, ht]
  refine ⟨?_, ?_, ?_, ?_⟩
  · by_cases hs : s = ""
    · subst hs
      exact List.nil_infix
    · unfold systemV1
      rw [hbrand s hs]
      exact strContains_appendL _ (strContains_appendR _ (strContains_self s))
  · unfold systemV1
    rw [hbrand "The Elysium Group" (by decide)]
    rfl
  · by_cases hs : s = ""
    · subst hs
      exact List.nil_infix
    · unfold systemP2
      rw [hbrand s hs]
      exact strContains_appendL _ (strContains_appendL _ (strContains_appendL _
        (strContains_appendL _ (strContains_appendL _ (strContains_appendL _
          (strContains_appendL _ (strContains_appendR _ (strContains_self s))))))))
  · unfold systemP2
    rw [hbrand "The Elysium Group" (by decide)]
    rfl

/-- C7: the spec-modelled `aggregate` applied to the empty snapshot
sequence succeeds with `sampleSize = 0` and every canonical category
average equal to `0`. -/
theorem c7_theorem :
    (aggregate []).sampleSize = 0 ∧ ∀ c ∈ (aggregate []).categoryAverages, c.average = 0 := by
  decide

/-- C9: the timeout constant is 8000 ms, but when the upstream fetch is
aborted (it rejects with an `AbortError`), the `.catch` wrapper rethrows a
plain `Error`, so the handler answers 500 "server" — never the intended
504 "Upstream timeout" mapping claimed (and stated in the code's own
comment). -/
theorem c9_theorem :
    OPENAI_TIMEOUT_MS = 8000 ∧
    part002Respond (UpstreamOutcome.fetchRejected "AbortError" "This operation was aborted") =
      (500, "server") ∧
    part002Respond (UpstreamOutcome.fetchRejected "AbortError" "This operation was aborted") ≠
      (504, "Upstream timeout") := by
  refine ⟨rfl, rfl, ?_⟩
  decide

set_option maxRecDepth 16384 in
theorem strContains_split (u v : String) {s t : String} (h : s = u ++ t ++ v) :
    strContains s t := by
  refine ⟨u.data, v.data, ?_⟩
  rw [h, data_append, data_append]

set_option maxRecDepth 16384 in
/-- C3: for every request whose snapshot carries a score entry with a
finite numeric `current`, the system text of the first `src/api/analyze.ts`
handler and of the `src/unnamed/part_002` handler contains the explicit
instruction "No numeric scores in the prose.", while the user content
block of each still contains that numeric value verbatim (its JS rendering
appears inside the serialized snapshot). -/
theorem c3_theorem (brand : Option String) (snapshot : JsVal)
    (fs : List (String × JsVal)) (rows : List JsVal) (entry : List (String × JsVal))
    (q : ℚ) (notes : List String)
    (hsnap : snapshot = JsVal.vObj fs)
    (hscores : ("scores", JsVal.vArr rows) ∈ fs)
    (hrow : JsVal.vObj entry ∈ rows)
    (hcur : ("current", JsVal.vNum (JsNum.fin q)) ∈ entry) :
    strContains (systemV1 brand) "No numeric scores in the prose." ∧
    strContains (userV1 snapshot notes) (ratRepr q) ∧
    strContains (systemP2 brand) "No numeric scores in the prose." ∧
    strContains (userP2 snapshot notes) (ratRepr q) := by
  have hsnapc : strContains (renderP "" snapshot) (ratRepr q) := by
    subst hsnap
    have h1 := renderP_obj_contains "" fs "scores" (JsVal.vArr rows) hscores
    have h2 := renderP_arr_contains ("" ++ "  ") rows (JsVal.vObj entry) hrow
    have h3 := renderP_obj_contains ("" ++ "  " ++ "  ") entry "current"
      (JsVal.vNum (JsNum.fin q)) hcur
    have h4 : renderP ("" ++ "  " ++ "  " ++ "  ") (JsVal.vNum (JsNum.fin q)) = ratRepr q := by
      rw [renderP_num]
      rfl
    rw [h4] at h3
    exact strContains_trans h1 (strContains_trans h2 h3)
  refine ⟨?_, ?_, ?_, ?_⟩
  · unfold systemV1
    refine strContains_appendR _ (strContains_split
      "\".\nUse the 8 culture styles (Caring, Purpose, Learning, Enjoyment, Results, Authority, Safety, Order).\nAudience: sophisticated corporate executives. Be plain-spoken, premium, and actionable.\nConnect culture + leadership behaviors to measurable business outcomes.\n"
      " Provide near-term (90-day) and 12-month horizons.\n\nReturn sections:\n1) Executive Summary (3–5 bullets)\n2) Strengths That Matter (tie to outcomes)\n3) Priority Shifts (2–4 targeted recommendations)\n4) Leadership Behaviors & Rituals (by style)\n5) Risks to Monitor & Metrics to Watch\n"
      (by decide))
  · unfold userV1
    exact strContains_appendL _ (strContains_appendL _ (strContains_appendL _
      (strContains_appendR _ hsnapc)))
  · unfold systemP2
    refine strContains_appendL _ (strContains_appendL _ (strContains_appendR _
      (strContains_split "Tone: premium, plain-spoken, executive-ready. " "" (by decide))))
  · unfold userP2
    exact strContains_appendL _ (strContains_appendL _ (strContains_appendL _
      (strContains_appendL _ (strContains_appendL _ (strContains_appendL _
        (strContains_appendR _ hsnapc))))))

/-- C3 (witness): at the concrete snapshot
`{ scores: [{ key: "caring", current: 6 }] }` the value `6` appears
verbatim in both user blocks and both system texts carry the instruction. -/
theorem c3_witness :
    strContains (systemV1 none) "No numeric scores in the prose." ∧
    strContains
      (userV1 (JsVal.vObj [("scores", JsVal.vArr
        [JsVal.vObj [("key", JsVal.vStr "caring"), ("current", JsVal.vNum (JsNum.fin 6))]])]) [])
      (ratRepr 6) ∧
    strContains (systemP2 none) "No numeric scores in the prose." ∧
    strContains
      (userP2 (JsVal.vObj [("scores", JsVal.vArr
        [JsVal.vObj [("key", JsVal.vStr "caring"), ("current", JsVal.vNum (JsNum.fin 6))]])]) [])
      (ratRepr 6) :=
  c3_theorem none _ _ _ _ 6 [] rfl (List.mem_singleton.mpr rfl) (List.mem_singleton.mpr rfl)
    (List.mem_cons_of_mem _ (List.mem_singleton.mpr rfl))

/-- C5 (counterexample): on two entries tied at value 5, `asPrettyScores`
keeps the input order `["order", "caring"]`, even though the canonical
category ordering places `caring` before `order` — ties are not broken by
the canonical ordering. -/
theorem c5_counterexample :
    (asPrettyScores [{ key := "order", style := none, current := some 5 },
                     { key := "caring", style := none, current := some 5 }]).map PrettyScore.key =
      ["order", "caring"] ∧
    canonicalKeys.indexOf "caring" < canonicalKeys.indexOf "order" := by
  constructor
  · rfl
  · decide

/-- C5 (amended): `asPrettyScores` sorts descending by `current ?? 0`, and
entries with equal values keep their relative input order (the ECMAScript
sort is stable) — not the canonical category ordering. -/
theorem c5_theorem (scores : List ScoreRow) (q : ℚ) :
    List.Sorted (fun a b => prettyVal b ≤ prettyVal a) (asPrettyScores scores) ∧
    (asPrettyScores scores).filter (fun p => decide (prettyVal p = q)) =
      (scores.filter (fun r => decide (curVal r = q))).map prettify := by
  constructor
  · have hs := sorted_sortDescBy curVal scores
    unfold asPrettyScores
    exact List.Pairwise.map prettify (fun a b h => h) hs
  · unfold asPrettyScores
    rw [List.filter_map]
    exact congrArg (List.map prettify) (filter_sortDescBy curVal q scores)

theorem catEntries_keys (snaps : List SpecSnapshot) :
    (catEntries snaps).map CatAvg.key = canonicalKeys := by
  simp only [catEntries, List.map_map]
  exact List.map_id canonicalKeys

/-- C8: for every input, `categoryAverages` of the spec-modelled
`aggregate` lists every canonical category exactly once (eight entries in
total), and a category with zero contributing values appears with average
`0` (its average is a rational, hence finite, by construction). -/
theorem c8_theorem (snaps : List SpecSnapshot) (k : String) (hk : k ∈ canonicalKeys) :
    ((aggregate snaps).categoryAverages.map CatAvg.key).count k = 1 ∧
    (aggregate snaps).categoryAverages.length = 8 ∧
    (contributions k snaps = [] →
      ({ key := k, label := canonicalLabel k, average := 0 } : CatAvg) ∈
        (aggregate snaps).categoryAverages) := by
  have hperm : ((aggregate snaps).categoryAverages).Perm (catEntries snaps) :=
    sortDescBy_perm CatAvg.average (catEntries snaps)
  refine ⟨?_, ?_, ?_⟩
  · have hmap : ((aggregate snaps).categoryAverages.map CatAvg.key).Perm canonicalKeys := by
      have h := hperm.map CatAvg.key
      rwa [catEntries_keys] at h
    rw [hmap.count_eq]
    simp only [canonicalKeys] at hk ⊢
    fin_cases hk <;> decide
  · rw [hperm.length_eq]
    simp [catEntries, canonicalKeys]
  · intro h0
    have hav : catAverage k snaps = 0 := by
      simp [catAverage, h0]
    have hmem : ({ key := k, label := canonicalLabel k, average := catAverage k snaps } : CatAvg) ∈
        catEntries snaps := List.mem_map_of_mem _ hk
    rw [hav] at hmem
    exact hperm.mem_iff.mpr hmem

/-- C8 (witness): at the empty input and the category `caring`. -/
theorem c8_witness :
    (((aggregate []).categoryAverages.map CatAvg.key).count "caring" = 1) ∧
    ({ key := "caring", label := canonicalLabel "caring", average := 0 } : CatAvg) ∈
      (aggregate []).categoryAverages :=
  ⟨( c8_theorem [] "caring" (by decide)).1,
   ( c8_theorem [] "caring" (by decide)).2.2 (by decide)⟩

theorem bodyRow_eq_none (cl : Nat) (r : List String) :
    bodyRow cl r = none ↔ (r.isEmpty || ((jsTrim (r.headD "")) == "")) = true := by
  cases r with
  | nil => simp [bodyRow]
  | cons c0 rest =>
    by_cases h : jsTrim c0 = "" <;> simp [bodyRow, h]

theorem cultures_empty_iff (h : List String) :
    ((h.map jsTrim).drop 1).filter (fun s => s != "") = [] ↔
      (h.drop 1).all (fun s => jsTrim s == "") = true := by
  rw [← List.map_drop, List.filter_eq_nil_iff, List.all_eq_true]
  constructor
  · intro hall x hx
    have := hall (jsTrim x) (List.mem_map_of_mem jsTrim hx)
    simpa using this
  · intro hall s hs
    obtain ⟨x, hx, rfl⟩ := List.mem_map.mp hs
    simpa using hall x hx

/-- C10: `normalizeMatrixFromRows` returns `null` exactly when there are
no rows, no non-empty header cell after the first column, or no body row
with a non-empty first-cell label; otherwise `chosen` and `weights` have
equal length, every weights row is padded to at least the number of
cultures, and every weight cell is finite (a non-finite `Number(...)`
coerces to `0`). -/
theorem c10_theorem (rows : List (List String)) (m : NormMatrix) (x : String) :
    (normalizeMatrixFromRows rows = none ↔
      rows = [] ∨ ∃ h t, rows = h :: t ∧
        ((h.drop 1).all (fun s => jsTrim s == "") = true ∨
         t.all (fun r => r.isEmpty || ((jsTrim (r.headD "")) == "")) = true)) ∧
    (normalizeMatrixFromRows rows = some m →
      m.chosen.length = m.weights.length ∧ ∀ w ∈ m.weights, m.cultures.length ≤ w.length) ∧
    ((jsNumber x).isFinite = false → toWeight x = 0) := by
  refine ⟨?_, ?_, ?_⟩
  · cases rows with
    | nil => simp [normalizeMatrixFromRows]
    | cons h t =>
      simp only [normalizeMatrixFromRows]
      constructor
      · intro hnone
        refine Or.inr ⟨h, t, rfl, ?_⟩
        by_cases hc : ((h.map jsTrim).drop 1).filter (fun s => s != "") = []
        · exact Or.inl ((cultures_empty_iff h).mp hc)
        · refine Or.inr ?_
          rw [List.all_eq_true]
          intro r hr
          rw [← bodyRow_eq_none (((h.map jsTrim).drop 1).filter (fun s => s != "")).length r]
          by_contra hbr
          have hcond : ¬((((h.map jsTrim).drop 1).filter (fun s => s != "")).length = 0 ∨
              (t.filterMap (bodyRow (((h.map jsTrim).drop 1).filter (fun s => s != "")).length)).length = 0) := by
            push_neg
            constructor
            · intro hlen
              exact hc (List.length_eq_zero.mp hlen)
            · intro hlen
              have := (List.filterMap_eq_nil_iff.mp (List.length_eq_zero.mp hlen)) r hr
              exact hbr this
          rw [if_neg hcond] at hnone
          exact Option.some_ne_none _ hnone
      · rintro (hnil | ⟨h', t', heq, hcond⟩)
        · exact absurd hnil (List.cons_ne_nil h t)
        · obtain ⟨rfl, rfl⟩ : h = h' ∧ t = t' := by
            injection heq with h1 h2
            exact ⟨h1, h2⟩
          have : (((h.map jsTrim).drop 1).filter (fun s => s != "")).length = 0 ∨
              (t.filterMap (bodyRow (((h.map jsTrim).drop 1).filter (fun s => s != "")).length)).length = 0 := by
            rcases hcond with hh | ht
            · exact Or.inl (by rw [List.length_eq_zero]; exact (cultures_empty_iff h).mpr hh)
            · refine Or.inr ?_
              rw [List.length_eq_zero, List.filterMap_eq_nil_iff]
              intro r hr
              rw [bodyRow_eq_none]
              exact List.all_eq_true.mp ht r hr
          rw [if_pos this]
  · intro hm
    cases rows with
    | nil => simp [normalizeMatrixFromRows] at hm
    | cons h t =>
      simp only [normalizeMatrixFromRows] at hm
      by_cases hc : (((h.map jsTrim).drop 1).filter (fun s => s != "")).length = 0 ∨
          (t.filterMap (bodyRow (((h.map jsTrim).drop 1).filter (fun s => s != "")).length)).length = 0
      · rw [if_pos hc] at hm
        exact absurd hm (Option.noConfusion)
      · rw [if_neg hc] at hm
        injection hm with hm'
        subst hm'
        constructor
        · simp
        · intro w hw
          simp only [List.map_map] at hw
          obtain ⟨p, hp, rfl⟩ := List.mem_map.mp hw
          obtain ⟨r, hr, hbr⟩ := List.mem_filterMap.mp hp
          cases r with
          | nil => simp [bodyRow] at hbr
          | cons c0 rest =>
            simp only [bodyRow] at hbr
            by_cases hl : jsTrim c0 = ""
            · rw [if_pos hl] at hbr
              exact absurd hbr (Option.noConfusion)
            · rw [if_neg hl] at hbr
              injection hbr with hbr'
              rw [← hbr']
              simp only [padWeights, List.length_append, List.length_replicate]
              omega
  · intro hfin
    simp [toWeight, hfin]

/-- C10 (witness): at the empty matrix, the concrete matrix
`[["", "A"], ["item", "3"]]`, and the non-numeric cell "abc". -/
theorem c10_witness :
    normalizeMatrixFromRows [] = none ∧
    ({ cultures := ["A"], chosen := ["item"], weights := [[3]] } : NormMatrix).chosen.length =
      ({ cultures := ["A"], chosen := ["item"], weights := [[3]] } : NormMatrix).weights.length ∧
    toWeight "abc" = 0 :=
  ⟨( c10_theorem [] { cultures := ["A"], chosen := ["item"], weights := [[3]] } "abc").1.mpr
      (Or.inl rfl),
   (( c10_theorem [["", "A"], ["item", "3"]]
        { cultures := ["A"], chosen := ["item"], weights := [[3]] } "abc").2.1 (by decide)).1,
   ( c10_theorem [] { cultures := ["A"], chosen := ["item"], weights := [[3]] } "abc").2.2
      (by decide)⟩
